import Mathlib

/-!
# Verification of the electron-dragfile-plugin sensor-overlay core

Shallow embedding of the dynamic sensor-window overlay engine of
`electron-dragfile-plugin`: the sensor grid planner with boundary clamping,
the sensor-window lifecycle state machine, the coordinate normalizer, the
listener registry / event bus of the NAPI module surface, and the event
schemas documented by the repository.

The Rust core (`src/lib.rs`, `src/bin/drag-monitor-helper.rs`) and the
JavaScript entry point (`index.js`) are not part of the available sources;
where a definition embeds one of those missing pieces it is modelled from
the specification (and from the code snippets quoted in
`src/TECHNICAL_DESIGN.md` and the behaviour asserted by the repository's
test suite), and its doc comment says so.
-/

set_option autoImplicit false

namespace DragPlugin

/-! ## Data model: monitors, grid slots, rectangles -/

/-- A monitor descriptor: id, origin, pixel size and HiDPI scale factor
(spec §3 `MonitorDescriptor`). Coordinates are integers; the source works
in `f64`, but only ordering, addition and multiplication are used, so the
embedding uses `Int`. -/
structure MonitorDescriptor where
  id : Nat
  originX : Int
  originY : Int
  widthPx : Int
  heightPx : Int
  scaleFactor : Int
  deriving Repr, DecidableEq

/-- One slot of a grid layout: its grid coordinate `(row, col)`, the offset
`(dx, dy)` of the candidate rectangle's top-left corner from the (scaled)
center, and the window size `(w, h)`. -/
structure Slot where
  row : Int
  col : Int
  dx : Int
  dy : Int
  w : Int
  h : Int
  deriving Repr, DecidableEq

/-- An axis-aligned rectangle in physical pixels. -/
structure Rect where
  x : Int
  y : Int
  w : Int
  h : Int
  deriving Repr, DecidableEq

/-- A planned sensor window: its slot coordinate, final rectangle, and
whether the boundary clamp moved it (spec §3 `SensorWindowSpec`). -/
structure SensorWindowSpec where
  slotRow : Int
  slotCol : Int
  rect : Rect
  clamped : Bool
  deriving Repr, DecidableEq

/-- Modelled from the spec: the per-window placement step of `plan()`
(spec §4.3), whose implementation lives in the missing
`src/bin/drag-monitor-helper.rs`.  The clamp follows the `智能边界检查`
snippet quoted in `src/TECHNICAL_DESIGN.md` (lines 140–148 / 476–488):
`max_x = monitor_size.width - window_width`,
`final_x = window_x.max(origin).min(max_x)` (the snippet has origin `0`
for the primary monitor; §4.3 states the bounds as
`[monitor.originX, monitor.originX+widthPx)`), and analogously for `y`
using the already-adjusted `x` ordering. `clamped` records whether the
rectangle moved. -/
def planOne (cx cy : Int) (m : MonitorDescriptor) (s : Slot) : SensorWindowSpec :=
  let windowX := cx + s.dx
  let windowY := cy + s.dy
  let maxX := m.originX + m.widthPx - s.w
  let maxY := m.originY + m.heightPx - s.h
  let finalX := min (max windowX m.originX) maxX
  let finalY := min (max windowY m.originY) maxY
  { slotRow := s.row
    slotCol := s.col
    rect := { x := finalX, y := finalY, w := s.w, h := s.h }
    clamped := decide (finalX ≠ windowX ∨ finalY ≠ windowY) }

/-- Modelled from the spec: `plan(center, monitor, layout)` (spec §4.3),
implemented in the missing helper binary: one sensor-window spec per layout
slot, each boundary-clamped by `planOne`; rectangles are never dropped. -/
def plan (cx cy : Int) (m : MonitorDescriptor) (layout : List Slot) :
    List SensorWindowSpec :=
  layout.map (planOne cx cy m)

/-- The 5×5 sparse grid layout of `src/TECHNICAL_DESIGN.md` (v1.0): 24
windows of 2×2 px, 10 px spacing, center cell omitted;
`window_x = scaled_mouse_x + col * spacing`. -/
def grid5x5Layout : List Slot :=
  (List.range 5).flatMap fun r =>
    (List.range 5).filterMap fun c =>
      let row : Int := (r : Int) - 2
      let col : Int := (c : Int) - 2
      if row = 0 ∧ col = 0 then none
      else some { row := row, col := col, dx := col * 10, dy := row * 10, w := 2, h := 2 }

/-- The 4-window frame layout of `src/TECHNICAL_DESIGN.md` (v2.0):
top/bottom strips 80×15, left/right strips 15×80, 50 px from the mouse
center (spec §8 places them at (460,435), (460,550), (435,460), (550,460)
for center (500,500)). -/
def frame4Layout : List Slot :=
  [ { row := -1, col := 0, dx := -40, dy := -65, w := 80, h := 15 }
  , { row := 1, col := 0, dx := -40, dy := 50, w := 80, h := 15 }
  , { row := 0, col := -1, dx := -65, dy := -40, w := 15, h := 80 }
  , { row := 0, col := 1, dx := 50, dy := -40, w := 15, h := 80 } ]

/-- A rectangle lies entirely inside a monitor's bounds
`[originX, originX+widthPx) × [originY, originY+heightPx)`. -/
def rectInMonitor (r : Rect) (m : MonitorDescriptor) : Prop :=
  m.originX ≤ r.x ∧ r.x + r.w ≤ m.originX + m.widthPx ∧
    m.originY ≤ r.y ∧ r.y + r.h ≤ m.originY + m.heightPx

instance (r : Rect) (m : MonitorDescriptor) : Decidable (rectInMonitor r m) := by
  unfold rectInMonitor; infer_instance

/-- A slot's window fits on the monitor at all: positive size, no larger
than the monitor. Every layout shipped by the project (2×2 px windows,
80×15 / 15×80 strips) satisfies this on any real monitor. -/
def slotFits (s : Slot) (m : MonitorDescriptor) : Prop :=
  0 < s.w ∧ s.w ≤ m.widthPx ∧ 0 < s.h ∧ s.h ≤ m.heightPx

instance (s : Slot) (m : MonitorDescriptor) : Decidable (slotFits s m) := by
  unfold slotFits; infer_instance

/-! ## Sensor-window lifecycle state machine (spec §4.4, §4.5)

The window lifecycle of the missing Rust core: `Idle → Armed` on a
qualifying pointer button-down (create all `|layout|` sensor windows),
`Armed → Closing` on the matching button-up (begin teardown), and
`Closing → Idle` once the windows are destroyed. Drag callbacks arriving
from the windowing system are republished while an episode is open and
discarded otherwise. -/

/-- Lifecycle phase (spec §4.4; `Active` of spec §3 never differs from
`Armed` in §4.4's transition table, so the machine has the three phases
the transitions use). -/
inductive LifePhase
  | idle
  | armed
  | closing
  deriving Repr, DecidableEq

/-- Kind of a native drag callback (spec §3 `DragCallbackEvent`,
`src/TECHNICAL_DESIGN.md` event types `hovered_file`, `dropped_file`,
`hovered_file_cancelled`). -/
inductive DragCbKind
  | hoveredFile
  | droppedFile
  | hoverCancelled
  deriving Repr, DecidableEq

/-- Kind of a pointer sample (spec §3 `PointerSample.kind`). -/
inductive PointerKind
  | down
  | move
  | up
  | wheel
  deriving Repr, DecidableEq

/-- An input to the lifecycle manager: a pointer sample, completion of the
window teardown, or a native drag callback. -/
inductive SysEvent
  | pointer (k : PointerKind)
  | cleanupDone
  | dragCb (k : DragCbKind) (filePath : Option String)
  deriving Repr, DecidableEq

/-- Is the event a native drag callback? -/
def SysEvent.isDragCb : SysEvent → Bool
  | .dragCb _ _ => true
  | _ => false

/-- A `DragEvent` as republished to listeners by the episode state machine
(spec §4.5): the callback kind and file path, re-tagged with the owning
episode id. -/
structure EmittedDragEvent where
  episodeId : Nat
  kind : DragCbKind
  filePath : Option String
  deriving Repr, DecidableEq

/-- Lifecycle manager state: current phase, number of live sensor windows,
and the id of the current episode (episode ids increase per episode). -/
structure LifeState where
  phase : LifePhase
  liveWindows : Nat
  episodeId : Nat
  deriving Repr, DecidableEq

/-- The state before any monitoring: `Idle`, no sensor windows. -/
def initLifeState : LifeState :=
  { phase := .idle, liveWindows := 0, episodeId := 0 }

/-- Modelled from the spec: one transition of the sensor-window lifecycle
manager and drag episode state machine (spec §4.4/§4.5, and the
`mousedown → start_file_drag_monitor_internal` /
`mouseup → stop_file_drag_monitor_internal` dispatch quoted in
`src/TECHNICAL_DESIGN.md` lines 89–99), whose implementation lives in the
missing `src/lib.rs`.  Returns the next state and the `DragEvent`s emitted
to listeners by this transition. -/
def lifeStep (layoutSize : Nat) (s : LifeState) :
    SysEvent → LifeState × List EmittedDragEvent
  | .pointer .down =>
      if s.phase = .idle then
        ({ phase := .armed, liveWindows := layoutSize,
           episodeId := s.episodeId + 1 }, [])
      else (s, [])
  | .pointer .move => (s, [])
  | .pointer .up =>
      if s.phase = .armed then ({ s with phase := .closing }, []) else (s, [])
  | .pointer .wheel => (s, [])
  | .cleanupDone =>
      if s.phase = .closing then
        ({ s with phase := .idle, liveWindows := 0 }, [])
      else (s, [])
  | .dragCb k fp =>
      if s.phase ≠ .idle then (s, [⟨s.episodeId, k, fp⟩]) else (s, [])

/-- Run the lifecycle machine over a trace of inputs, collecting all
emitted `DragEvent`s in order. -/
def lifeRunFrom (layoutSize : Nat) (s : LifeState) :
    List SysEvent → LifeState × List EmittedDragEvent
  | [] => (s, [])
  | e :: es =>
      let out := lifeStep layoutSize s e
      let rest := lifeRunFrom layoutSize out.1 es
      (rest.1, out.2 ++ rest.2)

/-- Run the lifecycle machine from the initial `Idle` state. -/
def lifeRun (layoutSize : Nat) (es : List SysEvent) :
    LifeState × List EmittedDragEvent :=
  lifeRunFrom layoutSize initLifeState es

/-- The window-count invariant of spec §4.4: zero live sensor windows in
`Idle`, exactly `|layout|` in `Armed` and `Closing`. -/
def windowCountInv (layoutSize : Nat) (s : LifeState) : Prop :=
  (s.phase = .idle → s.liveWindows = 0) ∧
    (s.phase ≠ .idle → s.liveWindows = layoutSize)

/-! ## Module surface: monitoring state, listener registry, event bus

The NAPI module surface (`index.js` / `src/lib.rs`) is not among the
available sources; the definitions below are modelled from the spec
(§4.6, §6, §7) and from the behaviour the repository's own test suite
(`src/unnamed/part_001`, `src/test-file-drag.js`, `src/unnamed/part_001`
simple test) asserts of it. -/

/-- An error thrown by a public entry point: a `TypeError` for invalid
arguments, or a generic `Error` with a message. -/
inductive JsError
  | typeError (msg : String)
  | genericError (msg : String)
  deriving Repr, DecidableEq

/-- The message carried by a `JsError`. -/
def JsError.message : JsError → String
  | .typeError m => m
  | .genericError m => m

/-- Is the result a synchronously thrown `TypeError`? -/
def isTypeError {α : Type} : Except JsError α → Bool
  | .error (.typeError _) => true
  | _ => false

/-- A JavaScript value as passed to a public entry point: the shapes the
argument-validation layer distinguishes. -/
inductive JSVal
  | str (s : String)
  | num (n : Int)
  | boolVal (b : Bool)
  | fn (id : Nat)
  | arr (elems : List JSVal)
  | nullVal

/-- Is the value a function? -/
def JSVal.isFunction : JSVal → Bool
  | .fn _ => true
  | _ => false

/-- Is the value a number? -/
def JSVal.isNumber : JSVal → Bool
  | .num _ => true
  | _ => false

/-- Is the value an array all of whose elements are strings? -/
def JSVal.isStringArray : JSVal → Bool
  | .arr elems => elems.all fun v => match v with | .str _ => true | _ => false
  | _ => false

/-- State of the module-level singleton (spec §9: process-wide singleton
owning the listener registry and the monitoring flags): whether drag
monitoring and file-drag monitoring are active, the next callback handle
to issue, and the currently registered handles. -/
structure ModuleState where
  monitoring : Bool
  fileDragMonitoring : Bool
  nextId : Int
  listeners : List Int
  deriving Repr, DecidableEq

/-- The module state at load: nothing monitored, no listeners, handles
start at 1 (the test suite asserts issued callback ids are `> 0`). -/
def initModuleState : ModuleState :=
  { monitoring := false, fileDragMonitoring := false, nextId := 1,
    listeners := [] }

/-- Well-formedness of the registry: handles are issued monotonically, so
every registered handle is positive and below `nextId` (spec §3
`ListenerRegistration`: unique monotonically increasing handles, never
reused). Holds of `initModuleState` and is preserved by every operation. -/
def ModuleWF (s : ModuleState) : Prop :=
  1 ≤ s.nextId ∧ ∀ h ∈ s.listeners, 1 ≤ h ∧ h < s.nextId

/-- Modelled from the spec: `startDragMonitor()` of the missing `index.js`
/ `src/lib.rs` (spec §7: double `start*` on an already-started monitor is
a no-op returning success). -/
def startDragMonitor (s : ModuleState) : Except JsError Unit × ModuleState :=
  if s.monitoring then (.ok (), s)
  else (.ok (), { s with monitoring := true })

/-- The `isMonitoring()` accessor of the module surface. -/
def isMonitoring (s : ModuleState) : Bool :=
  s.monitoring

/-- Modelled from the spec: `startFileDragMonitor(helperPath)` of the
missing `src/lib.rs` (spec §6 `configureDragMonitor`/`startDragMonitor`;
`src/test-file-drag.js` asserts double start does not error). The helper
locator is recorded but does not affect the idempotence contract. -/
def startFileDragMonitor (_helperPath : String) (s : ModuleState) :
    Except JsError Unit × ModuleState :=
  if s.fileDragMonitoring then (.ok (), s)
  else (.ok (), { s with fileDragMonitoring := true })

/-- The `isFileDragMonitoring()` accessor of the module surface. -/
def isFileDragMonitoring (s : ModuleState) : Bool :=
  s.fileDragMonitoring

/-- Modelled from the spec: the registration core of `onDragEvent`
(spec §4.6 `register(callback) -> handle`): issue the next handle and
record it. -/
def registerListener (s : ModuleState) : Int × ModuleState :=
  (s.nextId,
    { s with listeners := s.listeners ++ [s.nextId], nextId := s.nextId + 1 })

/-- Modelled from the spec: the removal core of `removeDragEventListener`
(spec §4.6 `unregister(handle) -> bool`, false if the handle is unknown or
already removed — idempotent, not an error). -/
def unregisterListener (h : Int) (s : ModuleState) : Bool × ModuleState :=
  if h ∈ s.listeners then (true, { s with listeners := s.listeners.erase h })
  else (false, s)

/-- A synthesized drop event as delivered to `onDragEvent` listeners by
`simulateDragEvent`: the repository's README (`src/unnamed/part_009`,
`DragEvent` interface) and test suite (`src/unnamed/part_001` lines
87–97) give it a `files` array (the dragged paths, in order) and a
`source` field (`"test"` for simulated events), plus a timestamp. -/
structure SimDragEvent where
  files : List String
  source : String
  timestamp : Int
  deriving Repr, DecidableEq

/-- Modelled from the spec: `simulateDragEvent(filePaths)` core of the
missing `src/lib.rs` (spec §6: synthesizes a drop sequence without real OS
input): while monitoring is active, fan out exactly one synthesized drop
event carrying the input paths to every registered listener (spec §4.6
fan-out; delivery observed as the list of handle–event pairs emitted by
this call). -/
def simulateDragEvent (files : List String) (ts : Int) (s : ModuleState) :
    ModuleState × List (Int × SimDragEvent) :=
  if s.monitoring then
    (s, s.listeners.map fun h => (h, ⟨files, "test", ts⟩))
  else (s, [])

/-- Modelled from the spec: the argument-validation wrapper of
`onDragEvent` (spec §7 `InvalidArgument`; the test suite asserts a
`TypeError` whose message contains `function` for a non-function
callback, and that a valid registration resolves to a numeric id). -/
def onDragEventJs (v : JSVal) (s : ModuleState) :
    Except JsError Int × ModuleState :=
  match v with
  | .fn _ =>
      let r := registerListener s
      (.ok r.1, r.2)
  | _ => (.error (.typeError ("Callback must be a function")), s)

/-- Modelled from the spec: the argument-validation wrapper of
`removeDragEventListener` (spec §7; the test suite asserts a `TypeError`
whose message contains `number` for a non-numeric handle). -/
def removeDragEventListenerJs (v : JSVal) (s : ModuleState) :
    Except JsError Bool × ModuleState :=
  match v with
  | .num n =>
      let r := unregisterListener n s
      (.ok r.1, r.2)
  | _ => (.error (.typeError ("Callback ID must be a number")), s)

/-- Modelled from the spec: the argument-validation wrapper of
`simulateDragEvent` (spec §7; the test suite asserts a `TypeError` whose
message contains `array` for a non-array argument and one containing
`strings` for an array with a non-string element). -/
def simulateDragEventJs (v : JSVal) (ts : Int) (s : ModuleState) :
    Except JsError Unit × ModuleState × List (Int × SimDragEvent) :=
  match v with
  | .arr elems =>
      if elems.all (fun e => match e with | .str _ => true | _ => false) then
        let files := elems.filterMap fun e =>
          match e with | .str p => some p | _ => none
        let r := simulateDragEvent files ts s
        (.ok (), r.1, r.2)
      else (.error (.typeError ("All file paths must be strings")), s, [])
  | _ => (.error (.typeError ("Files must be an array")), s, [])

/-! ## The `DragMonitor` wrapper class -/

/-- Does one character list start with another? -/
def startsWithSeg : List Char → List Char → Bool
  | [], _ => true
  | _ :: _, [] => false
  | a :: as, b :: bs => a == b && startsWithSeg as bs

/-- Does a character list contain another as a contiguous segment? -/
def hasSeg (needle : List Char) : List Char → Bool
  | [] => startsWithSeg needle []
  | b :: bs => startsWithSeg needle (b :: bs) || hasSeg needle bs

/-- Does the string `hay` contain `needle` as a contiguous substring
(the model of JavaScript `String.prototype.includes`)? -/
def strIncludes (hay needle : String) : Bool :=
  hasSeg needle.toList hay.toList

/-- Does the call result carry an error whose message contains `needle`? -/
def errorMentions {α : Type} (r : Except JsError α) (needle : String) : Bool :=
  match r with
  | .error e => strIncludes e.message needle
  | .ok _ => false

/-- State of a `DragMonitor` wrapper instance: whether it has been started
and the callback id it registered. -/
structure DragMonitorInst where
  active : Bool
  callbackId : Option Int
  deriving Repr, DecidableEq

/-- A freshly constructed `DragMonitor` instance. -/
def newDragMonitor : DragMonitorInst :=
  { active := false, callbackId := none }

/-- Modelled from the spec: `DragMonitor.start(callback)` of the missing
`index.js` wrapper class — the repository's test suite asserts that a
second `start` on the same instance rejects with an error whose message
contains `already started` (unlike the idempotent module-level `start*`
functions); a first `start` registers a listener and starts the module
monitor. -/
def dragMonitorStart (m : DragMonitorInst) (s : ModuleState) :
    Except JsError Int × DragMonitorInst × ModuleState :=
  if m.active then
    (.error (.genericError ("DragMonitor is already started")), m, s)
  else
    let r := registerListener s
    let r2 := startDragMonitor r.2
    (.ok r.1, { active := true, callbackId := some r.1 }, r2.2)

/-! ## Event payload schemas (spec §6 vs. the source's interfaces) -/

/-- The `DragEvent` schema as the spec words it (§6, stable schema):
written from the spec's words, for comparison against the interfaces
declared in the source. -/
def specDragEventSchemaFields : List String :=
  ["eventType", "filePath", "x", "y", "timestamp", "platform", "windowId"]

/-- The `PointerEvent` schema as the spec words it (§6). -/
def specPointerEventSchemaFields : List String :=
  ["eventType", "x", "y", "button", "timestamp", "platform"]

/-- Fields of the `FileDragEvent` interface declared in
`src/TECHNICAL_DESIGN.md` (lines 122–134): the events delivered to
`onFileDragEvent` listeners. -/
def fileDragEventFields : List String :=
  ["eventType", "filePath", "x", "y", "timestamp", "platform", "windowId"]

/-- Fields of the `MouseEvent` interface declared in
`src/TECHNICAL_DESIGN.md` (lines 109–120). -/
def mouseEventFields : List String :=
  ["eventType", "x", "y", "button", "timestamp", "platform"]

/-- Fields of the `DragEvent` interface declared in the repository README
(`src/unnamed/part_009`): `files: string[]`, `timestamp`, `source?` —
the shape of the events delivered to `onDragEvent` listeners, matching the
test suite's assertions on `event.files`, `event.timestamp` and
`event.source`. -/
def onDragEventFields : List String :=
  ["files", "timestamp", "source"]

/-! ## Coordinate normalizer (spec §4.2) -/

/-- Do a monitor's bounds contain the (logical) point? -/
def containsPoint (m : MonitorDescriptor) (x y : Int) : Bool :=
  decide (m.originX ≤ x) && decide (x < m.originX + m.widthPx) &&
    decide (m.originY ≤ y) && decide (y < m.originY + m.heightPx)

/-- Clamp a point to the nearest position inside a monitor's bounds. -/
def clampToMonitor (m : MonitorDescriptor) (x y : Int) : Int × Int :=
  (min (max x m.originX) (m.originX + m.widthPx - 1),
    min (max y m.originY) (m.originY + m.heightPx - 1))

/-- Distance from a point to a monitor's bounds (zero when inside). -/
def distToMonitor (m : MonitorDescriptor) (x y : Int) : Int :=
  |(clampToMonitor m x y).1 - x| + |(clampToMonitor m x y).2 - y|

/-- The monitor at minimal distance from the point among `best` and the
list (earlier entries win ties). -/
def nearestFrom (x y : Int) (best : MonitorDescriptor) :
    List MonitorDescriptor → MonitorDescriptor
  | [] => best
  | m :: ms =>
      if distToMonitor m x y < distToMonitor best x y then
        nearestFrom x y m ms
      else nearestFrom x y best ms

/-- The monitor of the list nearest to the point (first on ties). -/
def nearestMonitor (x y : Int) : List MonitorDescriptor →
    Option MonitorDescriptor
  | [] => none
  | m :: ms => some (nearestFrom x y m ms)

/-- Monitor selection of the normalizer: the first monitor whose bounds
contain the point, else the nearest monitor. -/
def selectMonitor (ms : List MonitorDescriptor) (x y : Int) :
    Option MonitorDescriptor :=
  (ms.find? fun m => containsPoint m x y).or (nearestMonitor x y ms)

/-- Modelled from the spec: `normalize(rawX, rawY, monitors)` (spec §4.2),
implemented in the missing `src/lib.rs`: select the monitor containing the
logical point (clamping to the nearest monitor's edge when none does,
instead of failing), then multiply by that monitor's `scaleFactor` to get
physical pixels — the `scaled_mouse_x = mouse_x * scale_factor` HiDPI rule
quoted in `src/TECHNICAL_DESIGN.md` (lines 67–75). Returns `none` only
when the monitor list itself is empty. -/
def normalize (rawX rawY : Int) (ms : List MonitorDescriptor) :
    Option (Int × Int × Nat) :=
  (selectMonitor ms rawX rawY).map fun m =>
    let c := clampToMonitor m rawX rawY
    (c.1 * m.scaleFactor, c.2 * m.scaleFactor, m.id)

/-- The demonstration monitor used as witness input: a 1920×1080 monitor
at the origin with HiDPI scale factor 2. -/
def demoMonitor : MonitorDescriptor :=
  { id := 0, originX := 0, originY := 0, widthPx := 1920, heightPx := 1080,
    scaleFactor := 2 }

/-! ## Theorems -/

/-! ### Clamp lemmas -/

theorem clamp_bounds {a b x : Int} (hab : a ≤ b) :
    a ≤ min (max x a) b ∧ min (max x a) b ≤ b := by
  omega

theorem clamp_min_dist {a b x : Int} (y : Int) (hy1 : a ≤ y) (hy2 : y ≤ b) :
    |min (max x a) b - x| ≤ |y - x| := by
  rcases abs_cases (min (max x a) b - x) with ⟨h1, h2⟩ | ⟨h1, h2⟩ <;>
    rcases abs_cases (y - x) with ⟨h3, h4⟩ | ⟨h3, h4⟩ <;> omega

theorem planOne_length_eq (cx cy : Int) (m : MonitorDescriptor) (layout : List Slot) :
    (plan cx cy m layout).length = layout.length :=
  List.length_map _ _

/-- Claim C1: for every center point, monitor, and layout (each of whose slots
fits the monitor), `plan()` returns exactly `|layout|` sensor-window specs;
every returned rectangle lies entirely within
`[originX, originX+widthPx) × [originY, originY+heightPx)` (even for
centers at an extreme corner, since the bound holds for all centers);
each rectangle is translated the minimum distance needed to fit on each
axis; and any rectangle that had to be moved is marked `clamped = true`. -/
theorem plan_count_bounds_clamp (cx cy : Int) (m : MonitorDescriptor)
    (layout : List Slot) (hfit : ∀ s ∈ layout, slotFits s m) :
    (plan cx cy m layout).length = layout.length ∧
      (∀ sw ∈ plan cx cy m layout, rectInMonitor sw.rect m) ∧
      (∀ s ∈ layout,
        (∀ x', m.originX ≤ x' → x' + s.w ≤ m.originX + m.widthPx →
          |(planOne cx cy m s).rect.x - (cx + s.dx)| ≤ |x' - (cx + s.dx)|) ∧
        (∀ y', m.originY ≤ y' → y' + s.h ≤ m.originY + m.heightPx →
          |(planOne cx cy m s).rect.y - (cy + s.dy)| ≤ |y' - (cy + s.dy)|) ∧
        ((planOne cx cy m s).rect.x ≠ cx + s.dx ∨
            (planOne cx cy m s).rect.y ≠ cy + s.dy →
          (planOne cx cy m s).clamped = true)) := by
  refine ⟨planOne_length_eq cx cy m layout, ?_, ?_⟩
  · intro sw hsw
    rcases List.mem_map.mp hsw with ⟨s, hs, rfl⟩
    rcases hfit s hs with ⟨hw0, hwm, hh0, hhm⟩
    have hx := clamp_bounds (a := m.originX) (b := m.originX + m.widthPx - s.w)
      (x := cx + s.dx) (by omega)
    have hy := clamp_bounds (a := m.originY) (b := m.originY + m.heightPx - s.h)
      (x := cy + s.dy) (by omega)
    simp only [planOne, rectInMonitor]
    omega
  · intro s hs
    rcases hfit s hs with ⟨hw0, hwm, hh0, hhm⟩
    refine ⟨?_, ?_, ?_⟩
    · intro x' h1 h2
      have := clamp_min_dist (a := m.originX) (b := m.originX + m.widthPx - s.w)
        (x := cx + s.dx) x' h1 (by omega)
      simpa [planOne] using this
    · intro y' h1 h2
      have := clamp_min_dist (a := m.originY) (b := m.originY + m.heightPx - s.h)
        (x := cy + s.dy) y' h1 (by omega)
      simpa [planOne] using this
    · intro hmoved
      simp only [planOne] at hmoved ⊢
      simpa using hmoved

/-- Witness for `C1`: the 24-slot 5×5 grid, centered at the extreme corner
(0,0) of a 1920×1080 monitor, still yields 24 specs, all within bounds;
minimality and the clamp flag hold at the slot (−2,−2) with the nearby
position 0 as comparison point. -/
theorem plan_count_bounds_clamp_witness :
    (∀ s ∈ grid5x5Layout,
      slotFits s { id := 0, originX := 0, originY := 0, widthPx := 1920,
                   heightPx := 1080, scaleFactor := 1 }) ∧
    (plan 0 0 { id := 0, originX := 0, originY := 0, widthPx := 1920,
                heightPx := 1080, scaleFactor := 1 } grid5x5Layout).length =
      grid5x5Layout.length ∧
    (∀ sw ∈ plan 0 0 { id := 0, originX := 0, originY := 0, widthPx := 1920,
                       heightPx := 1080, scaleFactor := 1 } grid5x5Layout,
      rectInMonitor sw.rect
        { id := 0, originX := 0, originY := 0, widthPx := 1920,
          heightPx := 1080, scaleFactor := 1 }) := by
  have hfit : ∀ s ∈ grid5x5Layout,
      slotFits s { id := 0, originX := 0, originY := 0, widthPx := 1920,
                   heightPx := 1080, scaleFactor := 1 } := by decide
  have h := plan_count_bounds_clamp 0 0
    { id := 0, originX := 0, originY := 0, widthPx := 1920,
      heightPx := 1080, scaleFactor := 1 } grid5x5Layout hfit
  exact ⟨hfit, h.1, h.2.1⟩

theorem lifeStep_windowCountInv (layoutSize : Nat) (s : LifeState)
    (e : SysEvent) (h : windowCountInv layoutSize s) :
    windowCountInv layoutSize (lifeStep layoutSize s e).1 := by
  rcases h with ⟨h0, h1⟩
  cases e with
  | pointer k =>
      cases k <;> simp only [lifeStep, windowCountInv] <;>
        first
          | (split <;> simp_all)
          | exact ⟨h0, h1⟩
  | cleanupDone =>
      simp only [lifeStep, windowCountInv]; split <;> simp_all
  | dragCb k fp =>
      simp only [lifeStep, windowCountInv]; split <;> simp_all

theorem lifeRunFrom_windowCountInv (layoutSize : Nat) (s : LifeState)
    (es : List SysEvent) (h : windowCountInv layoutSize s) :
    windowCountInv layoutSize (lifeRunFrom layoutSize s es).1 := by
  induction es generalizing s with
  | nil => exact h
  | cons e es ih =>
      exact ih _ (lifeStep_windowCountInv layoutSize s e h)

/-- Claim C2: the lifecycle preserves the invariant that exactly `|layout|`
sensor windows are live in `Armed`/`Closing` and exactly zero in `Idle`,
for every trace from the initial state; moreover a button-down in `Idle`
creates all `|layout|` windows (`Idle→Armed`), the matching button-up
(`Armed→Closing`, then `Closing→Idle` on teardown completion) destroys all
of them, and no other transition changes the window count. -/
theorem lifecycle_window_invariant (layoutSize : Nat) :
    (∀ es : List SysEvent,
      windowCountInv layoutSize (lifeRun layoutSize es).1) ∧
    (∀ s : LifeState, s.phase = .idle →
      ((lifeStep layoutSize s (.pointer .down)).1.phase = .armed ∧
        (lifeStep layoutSize s (.pointer .down)).1.liveWindows = layoutSize)) ∧
    (∀ s : LifeState, s.phase = .armed →
      ((lifeStep layoutSize s (.pointer .up)).1.phase = .closing ∧
        (lifeStep layoutSize s (.pointer .up)).1.liveWindows = s.liveWindows)) ∧
    (∀ s : LifeState, s.phase = .closing →
      ((lifeStep layoutSize s .cleanupDone).1.phase = .idle ∧
        (lifeStep layoutSize s .cleanupDone).1.liveWindows = 0)) ∧
    (∀ s : LifeState, ∀ e : SysEvent,
      (¬ (e = .pointer .down ∧ s.phase = .idle)) →
      (¬ (e = .cleanupDone ∧ s.phase = .closing)) →
      (lifeStep layoutSize s e).1.liveWindows = s.liveWindows) := by
  refine ⟨?_, ?_, ?_, ?_, ?_⟩
  · intro es
    exact lifeRunFrom_windowCountInv layoutSize initLifeState es
      (by simp [windowCountInv, initLifeState])
  · intro s hs; simp [lifeStep, hs]
  · intro s hs; simp [lifeStep, hs]
  · intro s hs; simp [lifeStep, hs]
  · intro s e h1 h2
    cases e with
    | pointer k =>
        cases k <;> simp only [lifeStep] <;> split <;> simp_all
    | cleanupDone => simp only [lifeStep]; split <;> simp_all
    | dragCb k fp => simp [lifeStep]; split <;> simp

/-- Witness for claim C2: the four-step trace button-down, drop callback,
button-up, cleanup ends in `Idle` with zero live windows (satisfying the
invariant for the 24-window layout), and a button-down in the initial
`Idle` state arms the machine with 24 live windows. -/
theorem lifecycle_window_invariant_witness :
    windowCountInv 24
        (lifeRun 24
          [SysEvent.pointer .down,
            SysEvent.dragCb .droppedFile (some ("/a.txt")),
            SysEvent.pointer .up, SysEvent.cleanupDone]).1 ∧
      (lifeStep 24 initLifeState (.pointer .down)).1.phase = .armed ∧
      (lifeStep 24 initLifeState (.pointer .down)).1.liveWindows = 24 := by
  have h := lifecycle_window_invariant 24
  exact ⟨h.1 _, (h.2.1 initLifeState rfl).1, (h.2.1 initLifeState rfl).2⟩

/-- Claim C8: a trace containing no native drag callback emits no `DragEvent`;
in particular a click-only interaction (button-down immediately followed
by the matching button-up, with no intervening drag-hover callback)
emits zero `DragEvent`s. -/
theorem clickOnly_no_dragEvents (layoutSize : Nat) (es : List SysEvent)
    (h : es.all (fun e => ! e.isDragCb) = true) :
    (lifeRun layoutSize es).2 = [] := by
  have main : ∀ s : LifeState,
      (lifeRunFrom layoutSize s es).2 = [] := by
    induction es with
    | nil => intro s; rfl
    | cons e es ih =>
        intro s
        simp only [List.all_cons, Bool.and_eq_true] at h
        have he : (lifeStep layoutSize s e).2 = [] := by
          cases e with
          | pointer k => cases k <;> simp only [lifeStep] <;> split <;> rfl
          | cleanupDone => simp only [lifeStep]; split <;> rfl
          | dragCb k fp => simp [SysEvent.isDragCb] at h
        simp only [lifeRunFrom, he, List.nil_append]
        exact ih h.2 _
  exact main initLifeState

/-- Witness for `C8`: the click-only trace button-down, button-up (with the
24-window grid layout) emits zero `DragEvent`s. -/
theorem clickOnly_no_dragEvents_witness :
    ([SysEvent.pointer .down, SysEvent.pointer .up].all
        (fun e => ! e.isDragCb) = true) ∧
      (lifeRun 24 [SysEvent.pointer .down, SysEvent.pointer .up]).2 = [] :=
  ⟨by decide, clickOnly_no_dragEvents 24 _ (by decide)⟩

/-- Claim C3: calling a `start*` entry point a second time while the monitor is
already started is a no-op returning success, not an error, and leaves the
monitoring state unchanged — both for `startDragMonitor` and for
`startFileDragMonitor`, on any state already started (in particular right
after a first `start`). -/
theorem start_idempotent (s : ModuleState) (p : String)
    (hm : isMonitoring s = true) (hf : isFileDragMonitoring s = true) :
    startDragMonitor s = (.ok (), s) ∧
      isMonitoring (startDragMonitor s).2 = true ∧
      startFileDragMonitor p s = (.ok (), s) ∧
      isFileDragMonitoring (startFileDragMonitor p s).2 = true ∧
      (∀ t : ModuleState,
        startDragMonitor (startDragMonitor t).2 =
          (.ok (), (startDragMonitor t).2)) ∧
      (∀ t : ModuleState,
        startFileDragMonitor p (startFileDragMonitor p t).2 =
          (.ok (), (startFileDragMonitor p t).2)) := by
  unfold isMonitoring at hm
  unfold isFileDragMonitoring at hf
  refine ⟨?_, ?_, ?_, ?_, ?_, ?_⟩
  · simp [startDragMonitor, hm]
  · simp [startDragMonitor, isMonitoring, hm]
  · simp [startFileDragMonitor, hf]
  · simp [startFileDragMonitor, isFileDragMonitoring, hf]
  · intro t
    by_cases h : t.monitoring <;> simp [startDragMonitor, h]
  · intro t
    by_cases h : t.fileDragMonitoring <;> simp [startFileDragMonitor, h]

/-- Witness for `C3`: starting the freshly started monitor again is a
no-op returning success with `isMonitoring` still `true`. -/
theorem start_idempotent_witness :
    isMonitoring (startDragMonitor (startDragMonitor initModuleState).2).2 =
        true ∧
      startDragMonitor
          { initModuleState with monitoring := true,
                                 fileDragMonitoring := true } =
        (.ok (), { initModuleState with monitoring := true,
                                        fileDragMonitoring := true }) := by
  have h := start_idempotent
    { initModuleState with monitoring := true, fileDragMonitoring := true }
    "dummy-path-for-compatibility" (by decide) (by decide)
  exact ⟨by decide, h.1⟩

theorem not_mem_of_wf (s : ModuleState) (hwf : ModuleWF s) :
    s.nextId ∉ s.listeners := by
  intro hmem
  have := hwf.2 _ hmem
  omega

/-- Claim C4: for a handle freshly issued by listener registration,
`removeDragEventListener` returns `true` on the first call and `false` on
the second call with the same handle; a handle that was never issued
(at or above the next id to be issued) also yields `false`, not an
error. -/
theorem removeListener_true_once (s : ModuleState) (hwf : ModuleWF s) :
    (unregisterListener (registerListener s).1 (registerListener s).2).1 =
        true ∧
      (unregisterListener (registerListener s).1
          (unregisterListener (registerListener s).1
            (registerListener s).2).2).1 = false ∧
      (∀ g : Int, (registerListener s).2.nextId ≤ g →
        (unregisterListener g (registerListener s).2).1 = false) := by
  have hnm := not_mem_of_wf s hwf
  have hmem : s.nextId ∈ s.listeners ++ [s.nextId] := by
    simp
  have herase : (s.listeners ++ [s.nextId]).erase s.nextId = s.listeners := by
    rw [List.erase_append_right _ hnm, List.erase_cons_head, List.append_nil]
  refine ⟨?_, ?_, ?_⟩
  · simp [registerListener, unregisterListener, hmem]
  · unfold registerListener unregisterListener
    simp [hmem, hnm, herase]
  · intro g hg
    have hg' : s.nextId + 1 ≤ g := hg
    have hgnm : g ∉ s.listeners ++ [s.nextId] := by
      intro hmem2
      rcases List.mem_append.mp hmem2 with h | h
      · have := hwf.2 _ h; omega
      · simp at h; omega
    simp [registerListener, unregisterListener, hgnm]

/-- Witness for `C4`: from the initial module state, the first removal of
the freshly issued handle returns `true`, the second returns `false`, and
removing the never-issued handle `999999` (the probe used by the
repository's simple test) returns `false`. -/
theorem removeListener_true_once_witness :
    ModuleWF initModuleState ∧
      (unregisterListener (registerListener initModuleState).1
          (registerListener initModuleState).2).1 = true ∧
      (unregisterListener (registerListener initModuleState).1
          (unregisterListener (registerListener initModuleState).1
            (registerListener initModuleState).2).2).1 = false ∧
      (unregisterListener 999999 (registerListener initModuleState).2).1 =
        false := by
  have hwf : ModuleWF initModuleState := by
    refine ⟨by decide, ?_⟩
    intro h hmem
    simp [initModuleState] at hmem
  have h := removeListener_true_once initModuleState hwf
  exact ⟨hwf, h.1, h.2.1, h.2.2 999999 (by decide)⟩

theorem filter_fst_eq_nil {α : Type} (l : List Int) (e : α) (h : Int)
    (hnm : h ∉ l) :
    (l.map fun x => (x, e)).filter (fun p => p.1 == h) = [] := by
  induction l with
  | nil => rfl
  | cons a l ih =>
      have ha : ¬ a = h := fun hc => hnm (hc ▸ List.mem_cons_self a l)
      have hnm' : h ∉ l := fun hc => hnm (List.mem_cons_of_mem a hc)
      simpa [List.filter_cons, ha] using ih hnm'

theorem filter_fst_length_one {α : Type} (l : List Int) (e : α) (h : Int)
    (hnd : l.Nodup) (hmem : h ∈ l) :
    ((l.map fun x => (x, e)).filter (fun p => p.1 == h)).length = 1 := by
  induction l with
  | nil => cases hmem
  | cons a l ih =>
      rcases List.nodup_cons.mp hnd with ⟨hna, hndl⟩
      by_cases hah : a = h
      · subst hah
        simp [List.filter_cons, filter_fst_eq_nil l e a hna]
      · have hmem' : h ∈ l := by
          rcases List.mem_cons.mp hmem with h' | h'
          · exact absurd h'.symm hah
          · exact h'
        simpa [List.filter_cons, hah] using ih hndl hmem'

/-- Claim C5: while monitoring is active, `simulateDragEvent` with a non-empty
list of file paths delivers exactly one synthesized drop event to each
registered listener, and the file-path list carried by every delivered
event equals the input list element-for-element, in order (the event also
carries the `"test"` source tag asserted by the test suite). -/
theorem simulate_delivers_once (s : ModuleState) (files : List String)
    (ts : Int) (hmon : isMonitoring s = true) (_hne : files ≠ [])
    (hnd : s.listeners.Nodup) :
    (simulateDragEvent files ts s).2 =
        (s.listeners.map fun h => (h, ⟨files, "test", ts⟩)) ∧
      (∀ h ∈ s.listeners,
        (((simulateDragEvent files ts s).2.filter
            (fun p => p.1 == h)).length = 1)) ∧
      (∀ p ∈ (simulateDragEvent files ts s).2, p.2.files = files) := by
  unfold isMonitoring at hmon
  have hout : (simulateDragEvent files ts s).2 =
      (s.listeners.map fun h => (h, ⟨files, "test", ts⟩)) := by
    simp [simulateDragEvent, hmon]
  refine ⟨hout, ?_, ?_⟩
  · intro h hmem
    rw [hout]
    exact filter_fst_length_one s.listeners _ h hnd hmem
  · intro p hp
    rw [hout] at hp
    rcases List.mem_map.mp hp with ⟨h, _, rfl⟩
    rfl

/-- Witness for `C5`: with monitoring active and listeners `[1, 2]`, the
test's file list delivers exactly one event to listener `1` and one to
listener `2`, each carrying the two paths in order. -/
theorem simulate_delivers_once_witness :
    isMonitoring { monitoring := true, fileDragMonitoring := false,
                   nextId := 3, listeners := [1, 2] } = true ∧
      (["/path/to/test/file1.txt", "/path/to/test/file2.jpg"] ≠
        ([] : List String)) ∧
      ([1, 2] : List Int).Nodup ∧
      (simulateDragEvent ["/path/to/test/file1.txt", "/path/to/test/file2.jpg"]
          1700000000
          { monitoring := true, fileDragMonitoring := false, nextId := 3,
            listeners := [1, 2] }).2 =
        [(1, { files := ["/path/to/test/file1.txt", "/path/to/test/file2.jpg"],
               source := "test", timestamp := 1700000000 }),
         (2, { files := ["/path/to/test/file1.txt", "/path/to/test/file2.jpg"],
               source := "test", timestamp := 1700000000 })] ∧
      (∀ h ∈ ([1, 2] : List Int),
        (((simulateDragEvent
              ["/path/to/test/file1.txt", "/path/to/test/file2.jpg"]
              1700000000
              { monitoring := true, fileDragMonitoring := false, nextId := 3,
                listeners := [1, 2] }).2.filter
            (fun p => p.1 == h)).length = 1)) := by
  have h := simulate_delivers_once
    { monitoring := true, fileDragMonitoring := false, nextId := 3,
      listeners := [1, 2] }
    ["/path/to/test/file1.txt", "/path/to/test/file2.jpg"] 1700000000
    (by decide) (by decide) (by decide)
  exact ⟨by decide, by decide, by decide, by simpa using h.1, h.2.1⟩

/-- Claim C9: passing an argument of the wrong type or shape to a public entry
point — a non-function callback to `onDragEvent`, a non-numeric handle to
`removeDragEventListener`, a non-array (or an array containing
non-strings) to `simulateDragEvent` — is rejected synchronously with a
`TypeError`, and the module state is unchanged with no event delivered. -/
theorem invalid_args_rejected (s : ModuleState) (vf vn va : JSVal) (ts : Int)
    (h1 : vf.isFunction = false) (h2 : vn.isNumber = false)
    (h3 : va.isStringArray = false) :
    (isTypeError (onDragEventJs vf s).1 = true ∧ (onDragEventJs vf s).2 = s) ∧
      (isTypeError (removeDragEventListenerJs vn s).1 = true ∧
        (removeDragEventListenerJs vn s).2 = s) ∧
      (isTypeError (simulateDragEventJs va ts s).1 = true ∧
        (simulateDragEventJs va ts s).2.1 = s ∧
        (simulateDragEventJs va ts s).2.2 = []) := by
  refine ⟨?_, ?_, ?_⟩
  · cases vf <;> simp_all [JSVal.isFunction, onDragEventJs, isTypeError]
  · cases vn <;>
      simp_all [JSVal.isNumber, removeDragEventListenerJs, isTypeError]
  · cases va with
    | arr elems =>
        have h3' : (elems.all fun e => match e with
            | JSVal.str _ => true | _ => false) = false := h3
        simp [simulateDragEventJs, isTypeError, h3']
    | str a => simp [simulateDragEventJs, isTypeError]
    | num a => simp [simulateDragEventJs, isTypeError]
    | boolVal a => simp [simulateDragEventJs, isTypeError]
    | fn a => simp [simulateDragEventJs, isTypeError]
    | nullVal => simp [simulateDragEventJs, isTypeError]

/-- Witness for `C9`: the test suite's probes — the string
`"not a function"` as a callback, `"not a number"` as a handle, and the
array `["valid/path", 123]` as a file list — are each rejected with a
`TypeError` and leave the initial module state unchanged. -/
theorem invalid_args_rejected_witness :
    (JSVal.str ("not a function")).isFunction = false ∧
      (JSVal.str ("not a number")).isNumber = false ∧
      (JSVal.arr [JSVal.str ("valid/path"), JSVal.num 123]).isStringArray =
        false ∧
      isTypeError (onDragEventJs (JSVal.str ("not a function"))
        initModuleState).1 = true ∧
      (onDragEventJs (JSVal.str ("not a function")) initModuleState).2 =
        initModuleState ∧
      isTypeError (simulateDragEventJs
        (JSVal.arr [JSVal.str ("valid/path"), JSVal.num 123]) 0
        initModuleState).1 = true ∧
      (simulateDragEventJs (JSVal.arr [JSVal.str ("valid/path"), JSVal.num 123])
        0 initModuleState).2.2 = [] := by
  have h := invalid_args_rejected initModuleState (JSVal.str ("not a function"))
    (JSVal.str ("not a number")) (JSVal.arr [JSVal.str ("valid/path"), JSVal.num 123])
    0 rfl rfl rfl
  exact ⟨rfl, rfl, rfl, h.1.1, h.1.2, h.2.2.1, h.2.2.2.2⟩

/-- Claim C10: starting an already-started `DragMonitor` instance rejects with
an error whose message contains `already started` and changes nothing
(unlike the idempotent module-level `start*` functions); in particular a
second `start` right after a first one fails this way. Listener
registration on a well-formed module state always returns a strictly
positive callback id, and the id a fresh `DragMonitor.start` registers is
strictly positive. -/
theorem dragMonitor_double_start (m : DragMonitorInst) (s t : ModuleState)
    (hactive : m.active = true) (hwf : ModuleWF t) :
    errorMentions (dragMonitorStart m s).1 ("already started") = true ∧
      (dragMonitorStart m s).2.1 = m ∧ (dragMonitorStart m s).2.2 = s ∧
      (∀ m' : DragMonitorInst, m'.active = false → ∀ u : ModuleState,
        errorMentions
          (dragMonitorStart (dragMonitorStart m' t).2.1 u).1
          "already started" = true) ∧
      0 < (registerListener t).1 ∧
      (∀ m' : DragMonitorInst, m'.active = false →
        (dragMonitorStart m' t).1 = .ok (registerListener t).1) := by
  refine ⟨?_, ?_, ?_, ?_, ?_, ?_⟩
  · simp only [dragMonitorStart, hactive, if_true]
    decide
  · simp [dragMonitorStart, hactive]
  · simp [dragMonitorStart, hactive]
  · intro m' hm' u
    simp only [dragMonitorStart, hm', Bool.false_eq_true, if_false]
    show errorMentions
      (Except.error (JsError.genericError ("DragMonitor is already started")))
      "already started" = true
    decide
  · have := hwf.1
    simp only [registerListener]
    omega
  · intro m' hm'
    simp [dragMonitorStart, hm']

/-- Witness for `C10`: a fresh `DragMonitor` started once on the initial
module state, then started again, rejects with an error mentioning
`already started`; the callback id issued by the first start is the
strictly positive id `1`. -/
theorem dragMonitor_double_start_witness :
    errorMentions
        (dragMonitorStart
          (dragMonitorStart newDragMonitor initModuleState).2.1
          (dragMonitorStart newDragMonitor initModuleState).2.2).1
        "already started" = true ∧
      (dragMonitorStart newDragMonitor initModuleState).1 = .ok 1 ∧
      (0 : Int) < 1 := by
  have hwf : ModuleWF initModuleState := by
    refine ⟨by decide, ?_⟩
    intro h hmem
    simp [initModuleState] at hmem
  have h := dragMonitor_double_start
    { active := true, callbackId := some 1 } initModuleState initModuleState
    rfl hwf
  refine ⟨h.2.2.2.1 newDragMonitor rfl
    (dragMonitorStart newDragMonitor initModuleState).2.2, ?_, by decide⟩
  have h2 := h.2.2.2.2.2 newDragMonitor rfl
  simpa [registerListener, initModuleState] using h2

/-- Counterexample for claim C6: the synthesized drop event that
`simulateDragEvent(["/path/to/test/file1.txt", "/path/to/test/file2.jpg"])`
delivers to the registered listener carries a `files` array (per the
repository's own `DragEvent` interface and test assertions), and that
interface has no `filePath` field and differs from the spec's claimed
stable `DragEvent` schema — so not every drag event delivered to a
listener conforms to `DragEvent{eventType, filePath, x, y, timestamp,
platform, windowId}`. -/
theorem dragEvent_schema_counterexample :
    (simulateDragEvent ["/path/to/test/file1.txt", "/path/to/test/file2.jpg"]
        1700000000
        { monitoring := true, fileDragMonitoring := false, nextId := 2,
          listeners := [1] }).2 =
      [(1, { files := ["/path/to/test/file1.txt", "/path/to/test/file2.jpg"],
             source := "test", timestamp := 1700000000 })] ∧
      "filePath" ∉ onDragEventFields ∧
      onDragEventFields ≠ specDragEventSchemaFields := by
  refine ⟨rfl, by decide, by decide⟩

/-- Amended claim C6: file-drag events (the `FileDragEvent` interface of
`src/TECHNICAL_DESIGN.md`) conform to the claimed schema
`{eventType, filePath, x, y, timestamp, platform, windowId}`, and mouse
events conform to `{eventType, x, y, button, timestamp, platform}`; but
the drag events delivered to `onDragEvent` listeners — in particular
every event synthesized by `simulateDragEvent` — instead follow the
module's `DragEvent` interface `{files, timestamp, source}`, carrying the
dragged paths as a `files` array rather than a single `filePath` string
field. -/
theorem dragEvent_schema_amended (files : List String) (ts : Int)
    (s : ModuleState) (p : Int × SimDragEvent)
    (hp : p ∈ (simulateDragEvent files ts s).2) :
    fileDragEventFields = specDragEventSchemaFields ∧
      mouseEventFields = specPointerEventSchemaFields ∧
      p.2.files = files ∧ p.2.source = "test" ∧
      "filePath" ∉ onDragEventFields := by
  refine ⟨rfl, rfl, ?_, ?_, by decide⟩ <;>
    · unfold simulateDragEvent at hp
      by_cases hm : s.monitoring
      · simp only [hm, if_true] at hp
        rcases List.mem_map.mp hp with ⟨h, _, rfl⟩
        rfl
      · simp [hm] at hp

/-- Witness for the amended `C6`: the event delivered to listener `1`
carries the two test paths as its `files` array and the `"test"` source
tag. -/
theorem dragEvent_schema_amended_witness :
    ((1 : Int), SimDragEvent.mk
        ["/path/to/test/file1.txt", "/path/to/test/file2.jpg"] "test" 7) ∈
      (simulateDragEvent ["/path/to/test/file1.txt", "/path/to/test/file2.jpg"]
        7
        { monitoring := true, fileDragMonitoring := false, nextId := 2,
          listeners := [1] }).2 ∧
      "filePath" ∉ onDragEventFields := by
  refine ⟨by decide, ?_⟩
  exact (dragEvent_schema_amended
    ["/path/to/test/file1.txt", "/path/to/test/file2.jpg"] 7
    { monitoring := true, fileDragMonitoring := false, nextId := 2,
      listeners := [1] }
    ((1 : Int), SimDragEvent.mk
      ["/path/to/test/file1.txt", "/path/to/test/file2.jpg"] "test" 7)
    (by decide)).2.2.2.2

theorem clampToMonitor_of_contains (m : MonitorDescriptor) (x y : Int)
    (h : containsPoint m x y = true) : clampToMonitor m x y = (x, y) := by
  unfold containsPoint at h
  simp only [Bool.and_eq_true, decide_eq_true_eq] at h
  obtain ⟨⟨⟨h1, h2⟩, h3⟩, h4⟩ := h
  unfold clampToMonitor
  simp only [Prod.mk.injEq]
  constructor <;> omega

theorem containsPoint_clamp (m : MonitorDescriptor) (x y : Int)
    (hw : 0 < m.widthPx) (hh : 0 < m.heightPx) :
    containsPoint m (clampToMonitor m x y).1 (clampToMonitor m x y).2 =
      true := by
  unfold containsPoint clampToMonitor
  simp only [Bool.and_eq_true, decide_eq_true_eq]
  refine ⟨⟨⟨?_, ?_⟩, ?_⟩, ?_⟩ <;> omega

theorem nearestFrom_dist_le (x y : Int) :
    ∀ (l : List MonitorDescriptor) (b : MonitorDescriptor),
      distToMonitor (nearestFrom x y b l) x y ≤ distToMonitor b x y := by
  intro l
  induction l with
  | nil => intro b; exact le_refl _
  | cons m ms ih =>
      intro b
      simp only [nearestFrom]
      by_cases hd : distToMonitor m x y < distToMonitor b x y
      · rw [if_pos hd]; exact le_trans (ih m) (le_of_lt hd)
      · rw [if_neg hd]; exact ih b

theorem nearestFrom_min (x y : Int) :
    ∀ (l : List MonitorDescriptor) (b n : MonitorDescriptor), n ∈ l →
      distToMonitor (nearestFrom x y b l) x y ≤ distToMonitor n x y := by
  intro l
  induction l with
  | nil => intro b n hn; cases hn
  | cons m ms ih =>
      intro b n hn
      simp only [nearestFrom]
      rcases List.mem_cons.mp hn with rfl | hn'
      · by_cases hd : distToMonitor n x y < distToMonitor b x y
        · rw [if_pos hd]; exact nearestFrom_dist_le x y ms n
        · rw [if_neg hd]
          exact le_trans (nearestFrom_dist_le x y ms b) (le_of_not_lt hd)
      · by_cases hd : distToMonitor m x y < distToMonitor b x y
        · rw [if_pos hd]; exact ih m n hn'
        · rw [if_neg hd]; exact ih b n hn'

theorem nearestFrom_mem (x y : Int) :
    ∀ (l : List MonitorDescriptor) (b : MonitorDescriptor),
      nearestFrom x y b l = b ∨ nearestFrom x y b l ∈ l := by
  intro l
  induction l with
  | nil => intro b; exact Or.inl rfl
  | cons m ms ih =>
      intro b
      simp only [nearestFrom]
      by_cases hd : distToMonitor m x y < distToMonitor b x y
      · rw [if_pos hd]
        rcases ih m with h | h
        · exact Or.inr (by rw [h]; exact List.mem_cons_self m ms)
        · exact Or.inr (List.mem_cons_of_mem m h)
      · rw [if_neg hd]
        rcases ih b with h | h
        · exact Or.inl h
        · exact Or.inr (List.mem_cons_of_mem m h)

/-- Claim C7: (i) when the monitor lookup finds a monitor containing the raw
(logical) point, `normalize` returns exactly the logical coordinates
multiplied by that monitor's `scaleFactor`, with its id; (ii) when no
monitor contains the point and the (positively sized) monitor list is
non-empty, `normalize` does not fail: it picks a monitor at minimal
distance and returns the point clamped to that monitor's edge, scaled,
the clamped point lying inside that monitor's bounds. -/
theorem normalize_contains_and_clamp :
    (∀ (ms : List MonitorDescriptor) (x y : Int) (m : MonitorDescriptor),
      (ms.find? fun mm => containsPoint mm x y) = some m →
      containsPoint m x y = true ∧ m ∈ ms ∧
        normalize x y ms = some (x * m.scaleFactor, y * m.scaleFactor, m.id)) ∧
      (∀ (ms : List MonitorDescriptor) (x y : Int),
        ms ≠ [] →
        (∀ mm ∈ ms, containsPoint mm x y = false) →
        (∀ mm ∈ ms, 0 < mm.widthPx ∧ 0 < mm.heightPx) →
        ∃ m, m ∈ ms ∧
          (∀ mm ∈ ms, distToMonitor m x y ≤ distToMonitor mm x y) ∧
          normalize x y ms =
            some ((clampToMonitor m x y).1 * m.scaleFactor,
              (clampToMonitor m x y).2 * m.scaleFactor, m.id) ∧
          containsPoint m (clampToMonitor m x y).1
            (clampToMonitor m x y).2 = true) := by
  constructor
  · intro ms x y m hfind
    have hp0 := List.find?_some hfind
    have hp : containsPoint m x y = true := hp0
    have hmem : m ∈ ms := List.mem_of_find?_eq_some hfind
    have hclamp := clampToMonitor_of_contains m x y hp
    refine ⟨hp, hmem, ?_⟩
    unfold normalize selectMonitor
    rw [hfind]
    simp [hclamp]
  · intro ms x y hne hnone hpos
    have hfind : (ms.find? fun mm => containsPoint mm x y) = none := by
      apply List.find?_eq_none.mpr
      intro a ha
      simp [hnone a ha]
    cases ms with
    | nil => exact absurd rfl hne
    | cons a l =>
        have hmem : nearestFrom x y a l ∈ a :: l := by
          rcases nearestFrom_mem x y l a with h | h
          · rw [h]; exact List.mem_cons_self a l
          · exact List.mem_cons_of_mem a h
        refine ⟨nearestFrom x y a l, hmem, ?_, ?_,
          containsPoint_clamp _ x y (hpos _ hmem).1 (hpos _ hmem).2⟩
        · intro n hn
          rcases List.mem_cons.mp hn with rfl | hn'
          · exact nearestFrom_dist_le x y l n
          · exact nearestFrom_min x y l a n hn'
        · unfold normalize selectMonitor
          rw [hfind]
          rfl

/-- Witness for `C7`: on the demonstration monitor (1920×1080, scale 2),
the contained point (100, 200) normalizes to (200, 400) on monitor 0, and
the off-screen point (−50, 500) is clamped to the monitor's left edge and
normalized to (0, 1000) without failing. -/
theorem normalize_contains_and_clamp_witness :
    ([demoMonitor].find? fun mm => containsPoint mm 100 200) =
        some demoMonitor ∧
      normalize 100 200 [demoMonitor] = some (200, 400, 0) ∧
      (∀ mm ∈ [demoMonitor], containsPoint mm (-50) 500 = false) ∧
      (∃ m, m ∈ [demoMonitor] ∧
        (∀ mm ∈ [demoMonitor],
          distToMonitor m (-50) 500 ≤ distToMonitor mm (-50) 500) ∧
        normalize (-50) 500 [demoMonitor] =
          some ((clampToMonitor m (-50) 500).1 * m.scaleFactor,
            (clampToMonitor m (-50) 500).2 * m.scaleFactor, m.id) ∧
        containsPoint m (clampToMonitor m (-50) 500).1
          (clampToMonitor m (-50) 500).2 = true) := by
  have hfind : ([demoMonitor].find? fun mm => containsPoint mm 100 200) =
      some demoMonitor := by decide
  have h1 := normalize_contains_and_clamp.1 [demoMonitor] 100 200
    demoMonitor hfind
  have h2 := normalize_contains_and_clamp.2 [demoMonitor] (-50) 500
    (by decide) (by decide) (by decide)
  exact ⟨hfind, h1.2.2, by decide, h2⟩

end DragPlugin
